import Mathlib

/-!
Verification development for the golwarc crawler toolkit.

This file gives a shallow embedding of the Spider crawler core
(`crawlers/spider.go`) and the SSRF URL validator (`libs` `Validator`),
together with an executable model of the parts of Go's standard
`net/url` package that those components call (`url.Parse`,
`URL.Hostname`, `URL.ResolveReference`, `URL.String`) and of the
`net` package's IP classification predicates.

Modelling conventions:
- Go strings are indexed by bytes; the model indexes by characters,
  which coincides for ASCII inputs (the inputs all claims exercise).
- DNS resolution (`net.LookupIP`) is modelled as an explicit oracle
  `DNSOracle`; `none` models a resolution failure.
- The HTTP transport, the goquery document parser and the caller's
  document handler are modelled as an explicit `FetchEnv` / handler
  field, so that per-URL crawl outcomes are a pure function of them.
-/

namespace Golwarc

/-! ### String helpers

All string manipulation is done through structurally recursive
helpers over `List Char` (Go indexes bytes; for the ASCII inputs the
claims exercise, character indexing coincides). -/

/-- First `n` characters, models Go slicing `s[:n]`. -/
def strTake (s : String) (n : Nat) : String := String.mk (s.data.take n)

/-- All but the first `n` characters, models Go slicing `s[n:]`. -/
def strDrop (s : String) (n : Nat) : String := String.mk (s.data.drop n)

/-- All but the last `n` characters, models Go slicing `s[:len-n]`. -/
def strDropRight (s : String) (n : Nat) : String :=
  String.mk (s.data.take (s.data.length - n))

/-- Models Go `strings.HasPrefix`. -/
def strStartsWith (s p : String) : Bool := p.data.isPrefixOf s.data

/-- Models Go `strings.HasSuffix`. -/
def strEndsWith (s p : String) : Bool := p.data.reverse.isPrefixOf s.data.reverse

/-- Models Go `strings.ContainsRune`. -/
def strContainsChar (s : String) (c : Char) : Bool := s.data.contains c

/-- Models Go `strings.ToLower` (ASCII case folding). -/
def goToLower (s : String) : String := String.mk (s.data.map Char.toLower)

/-- Index (in characters) of the last occurrence of `c` in `s`,
models Go `strings.LastIndex` for a single-byte separator. -/
def lastIdxOf (s : String) (c : Char) : Option Nat :=
  s.data.enum.foldl (fun acc p => if p.2 = c then some p.1 else acc) none

/-- Models Go `strings.Cut`: split at the first occurrence of `c`,
dropping the separator; `(s, "")` when absent. -/
def cutFirst (s : String) (c : Char) : String × String :=
  match s.data.findIdx? (· == c) with
  | none => (s, "")
  | some i => (strTake s i, strDrop s (i+1))

/-- Models Go `strings.TrimPrefix`. -/
def trimPrefix (s p : String) : String :=
  if strStartsWith s p then strDrop s p.data.length else s

/-- Models Go `strings.Split` for a single-character separator. -/
def splitOnChar (c : Char) : List Char → List (List Char)
  | [] => [[]]
  | x :: xs =>
    let r := splitOnChar c xs
    if x = c then [] :: r
    else (x :: r.headD []) :: r.tail

/-- Models Go `strings.Join` for a single-character separator. -/
def joinWithChar (c : Char) : List (List Char) → List Char
  | [] => []
  | [x] => x
  | x :: xs => x ++ c :: joinWithChar c xs

/-! ### Model of Go `net/url` parsing -/

/-- Go `net/url.stringContainsCTLByte`. -/
def containsCTL (s : String) : Bool :=
  s.data.any (fun c => c.toNat < 0x20 || c.toNat == 0x7f)

/-- Helper for `getScheme`; `orig` is the whole raw URL (returned
untouched when no scheme is present). -/
def getSchemeAux (orig : String) : List Char → List Char → Except String (String × String)
  | [], _ => .ok ("", orig)
  | c :: rest, acc =>
    if c.isAlpha then getSchemeAux orig rest (acc ++ [c])
    else if c.isDigit || c == '+' || c == '-' || c == '.' then
      if acc.isEmpty then .ok ("", orig) else getSchemeAux orig rest (acc ++ [c])
    else if c == ':' then
      if acc.isEmpty then .error "missing protocol scheme"
      else .ok (String.mk acc, String.mk rest)
    else .ok ("", orig)

/-- Models Go `net/url.getScheme`: split `scheme:rest`, erroring when
the raw URL starts with a colon. -/
def getScheme (s : String) : Except String (String × String) :=
  getSchemeAux s s.data []

/-- Models Go `net/url.validOptionalPort`: empty, or a colon followed
by decimal digits only. -/
def validOptionalPort (port : String) : Bool :=
  if port = "" then true
  else
    match port.data with
    | ':' :: digits => digits.all Char.isDigit
    | _ => false

/-- The non-alphanumeric characters Go's `shouldEscape` admits in a
host component (sub-delims and host-specific extras). -/
def hostExtraChars : List Char :=
  ['!', '$', '&', Char.ofNat 39, '(', ')', '*', '+', ',', ';', '=',
   ':', '[', ']', '<', '>', Char.ofNat 34, '-', '_', '.', '~']

/-- A character Go accepts unescaped inside a host component. -/
def hostCharAllowed (c : Char) : Bool :=
  c.isAlpha || c.isDigit || hostExtraChars.contains c

/-- Hexadecimal digit test, models Go `net/url.ishex`. -/
def ishex (c : Char) : Bool :=
  c.isDigit || (97 ≤ c.toNat && c.toNat ≤ 102) || (65 ≤ c.toNat && c.toNat ≤ 70)

/-- Hexadecimal digit value, models Go `net/url.unhex`. -/
def unhex (c : Char) : Nat :=
  if c.isDigit then c.toNat - 48
  else if 97 ≤ c.toNat ∧ c.toNat ≤ 102 then c.toNat - 87
  else if 65 ≤ c.toNat ∧ c.toNat ≤ 70 then c.toNat - 55
  else 0

/-- Models Go `net/url.unescape` in `encodeHost` mode: percent escapes
must be well-formed and (except `%25`) encode bytes ≥ 0x80; unescaped
ASCII characters must be in the allowed host character set. -/
def unescapeHost : List Char → Except String (List Char)
  | [] => .ok []
  | '%' :: a :: b :: rest =>
    if !(ishex a && ishex b) then .error "invalid URL escape"
    else if unhex a < 8 && !(a == '2' && b == '5') then .error "invalid URL escape"
    else do
      let tail ← unescapeHost rest
      .ok (Char.ofNat (16 * unhex a + unhex b) :: tail)
  | '%' :: _ => .error "invalid URL escape"
  | c :: rest =>
    if c.toNat < 0x80 && !hostCharAllowed c then .error "invalid character in host name"
    else do
      let tail ← unescapeHost rest
      .ok (c :: tail)

/-- Well-formedness of percent escapes (Go `unescape` in path/fragment
modes errors only on malformed `%XX`). -/
def validEscapes : List Char → Bool
  | [] => true
  | '%' :: a :: b :: rest => ishex a && ishex b && validEscapes rest
  | '%' :: _ => false
  | _ :: rest => validEscapes rest

/-- Models Go `net/url.parseHost`: validate the optional port and the
bracketed IPv6 form, then unescape/validate the host characters. -/
def parseHost (host : String) : Except String String :=
  if strStartsWith host "[" then
    match lastIdxOf host ']' with
    | none => .error "missing close bracket in host"
    | some i =>
      let colonPort := strDrop host (i+1)
      if !validOptionalPort colonPort then .error "invalid port after host"
      else (unescapeHost host.data).map String.mk
  else
    match lastIdxOf host ':' with
    | some i =>
      let colonPort := strDrop host i
      if !validOptionalPort colonPort then .error "invalid port after host"
      else (unescapeHost host.data).map String.mk
    | none => (unescapeHost host.data).map String.mk

/-- Characters Go's `validEncoded` accepts in the userinfo component
(approximation: unreserved, sub-delims, `:` and percent escapes). -/
def userinfoCharAllowed (c : Char) : Bool :=
  c.isAlpha || c.isDigit ||
    ['-', '_', '.', '~', '!', '$', '&', Char.ofNat 39, '(', ')', '*',
     '+', ',', ';', '=', ':', '%'].contains c

/-- Models Go's userinfo validation in `parseAuthority`. -/
def validUserinfo (s : String) : Bool :=
  validEscapes s.data && s.data.all userinfoCharAllowed

/-- Models Go `net/url.parseAuthority`: host after the last `@`;
userinfo before it must be valid. -/
def parseAuthority (authority : String) : Except String (Option String × String) :=
  match lastIdxOf authority '@' with
  | none => do
    let h ← parseHost authority
    .ok (none, h)
  | some i => do
    let h ← parseHost (strDrop authority (i+1))
    let userinfo := strTake authority i
    if !validUserinfo userinfo then .error "invalid userinfo"
    else .ok (some userinfo, h)

/-- Model of Go's `url.URL` record (the fields the crawler core
reads). `path` stores the escaped path (Go's `EscapedPath`);
`fragment` and `rawQuery` store the raw text. -/
structure GoURL where
  scheme : String := ""
  opaquePart : String := ""
  user : Option String := none
  host : String := ""
  path : String := ""
  omitHost : Bool := false
  forceQuery : Bool := false
  rawQuery : String := ""
  fragment : String := ""
deriving Repr, DecidableEq

/-- Models Go `net/url.parse` with `viaRequest = false` (fragment
already removed by the caller). -/
def parseNoFrag (rawURL : String) : Except String GoURL := do
  if containsCTL rawURL then throw "invalid control character in URL"
  if rawURL = "*" then return { path := "*" }
  let (schemeRaw, rest0) ← getScheme rawURL
  let scheme := goToLower schemeRaw
  let (rest1, forceQuery, rawQuery) :=
    if strEndsWith rest0 "?" && !(strContainsChar (strDropRight rest0 1) '?') then
      (strDropRight rest0 1, true, "")
    else
      let (r, q) := cutFirst rest0 '?'
      (r, false, q)
  let mut url : GoURL := { scheme := scheme, forceQuery := forceQuery, rawQuery := rawQuery }
  let mut rest := rest1
  if !strStartsWith rest "/" then
    if scheme ≠ "" then
      return { url with opaquePart := rest }
    let seg := (splitOnChar '/' rest.data).headD []
    if seg.contains ':' then throw "first path segment in URL cannot contain colon"
  if (scheme ≠ "" || !strStartsWith rest "///") && strStartsWith rest "//" then
    let afterSlashes := strDrop rest 2
    let (authority, rest2) :=
      match afterSlashes.data.findIdx? (· == '/') with
      | some i => (strTake afterSlashes i, strDrop afterSlashes i)
      | none => (afterSlashes, "")
    rest := rest2
    let (user, host) ← parseAuthority authority
    url := { url with user := user, host := host }
  else if scheme ≠ "" && strStartsWith rest "/" then
    url := { url with omitHost := true }
  if !validEscapes rest.data then throw "invalid URL escape in path"
  return { url with path := rest }

/-- Models Go `net/url.Parse`: cut the fragment at the first `#`,
parse the remainder, then validate the fragment's escapes. -/
def parseURL (rawURL : String) : Except String GoURL := do
  let (u, frag) := cutFirst rawURL '#'
  let url ← parseNoFrag u
  if frag = "" then return url
  if !validEscapes frag.data then throw "invalid URL escape in fragment"
  return { url with fragment := frag }

/-- Models Go `url.URL.Hostname()`: strip a valid `:port` suffix and
surrounding IPv6 brackets. -/
def GoURL.hostname (u : GoURL) : String :=
  let hostPort := u.host
  let host :=
    match lastIdxOf hostPort ':' with
    | some colon =>
      if validOptionalPort (strDrop hostPort colon) then strTake hostPort colon else hostPort
    | none => hostPort
  if strStartsWith host "[" && strEndsWith host "]" then strDropRight (strDrop host 1) 1
  else host

/-- Models Go `net/url.resolvePath`: merge `ref` onto `base` and
remove dot segments (RFC 3986 §5.2.3/§5.2.4). -/
def resolvePath (base ref : String) : String :=
  let full :=
    if ref = "" then base.data
    else if !strStartsWith ref "/" then
      (match lastIdxOf base '/' with
       | some i => base.data.take (i+1)
       | none => []) ++ ref.data
    else ref.data
  if full = [] then ""
  else
    let src := splitOnChar '/' full
    let dst := src.foldl
      (fun dst elem =>
        if elem = ['.'] then dst
        else if elem = ['.', '.'] then dst.dropLast
        else dst ++ [elem]) ([] : List (List Char))
    let dst :=
      if src.getLastD [] = ['.'] || src.getLastD [] = ['.', '.'] then dst ++ [[]] else dst
    let joined := joinWithChar '/' dst
    String.mk ('/' :: (match joined with | '/' :: t => t | t => t))

/-- Models Go `url.URL.ResolveReference` (RFC 3986 §5.3). -/
def resolveReference (u ref : GoURL) : GoURL := Id.run do
  let mut url := ref
  if ref.scheme = "" then
    url := { url with scheme := u.scheme }
  if ref.scheme ≠ "" || ref.host ≠ "" || ref.user.isSome then
    return { url with path := resolvePath ref.path "" }
  if ref.opaquePart ≠ "" then
    return { url with user := none, host := "", path := "" }
  if ref.path = "" && !ref.forceQuery && ref.rawQuery = "" then
    url := { url with rawQuery := u.rawQuery }
    if ref.fragment = "" then
      url := { url with fragment := u.fragment }
  if ref.path = "" && u.opaquePart ≠ "" then
    return { url with opaquePart := u.opaquePart, user := none, host := "", path := "" }
  return { url with host := u.host, user := u.user, path := resolvePath u.path ref.path }

/-- Models Go `url.URL.String()` (re-serialisation; host re-escaping
is the identity on the ASCII hosts the claims exercise). -/
def GoURL.str (u : GoURL) : String := Id.run do
  let mut buf : List Char := []
  if u.scheme ≠ "" then buf := buf ++ u.scheme.data ++ [':']
  if u.opaquePart ≠ "" then
    buf := buf ++ u.opaquePart.data
  else
    if u.scheme ≠ "" || u.host ≠ "" || u.user.isSome then
      if u.omitHost && u.host = "" && u.user.isNone then
        buf := buf
      else
        if u.host ≠ "" || u.path ≠ "" || u.user.isSome then
          buf := buf ++ ['/', '/']
        match u.user with
        | some ui => buf := buf ++ ui.data ++ ['@']
        | none => buf := buf
        if u.host ≠ "" then buf := buf ++ u.host.data
    if u.path ≠ "" && !strStartsWith u.path "/" && u.host ≠ "" then
      buf := buf ++ ['/']
    if buf = [] then
      let seg := (splitOnChar '/' u.path.data).headD []
      if seg.contains ':' then buf := buf ++ ['.', '/']
    buf := buf ++ u.path.data
  if u.forceQuery || u.rawQuery ≠ "" then
    buf := buf ++ ['?'] ++ u.rawQuery.data
  if u.fragment ≠ "" then
    buf := buf ++ ['#'] ++ u.fragment.data
  return String.mk buf

/-- Embedding of `Spider.ResolveURL` (`crawlers/spider.go`): parse
both URLs and resolve the reference against the base. -/
def ResolveURL (baseURL relativeURL : String) : Except String String := do
  let base ← parseURL baseURL
  let relative ← parseURL relativeURL
  return (resolveReference base relative).str

/-! ### Model of Go `net` IP classification -/

/-- An IP address as returned by DNS resolution. `v4` covers both
plain IPv4 and IPv4-mapped IPv6 addresses (Go's `To4`); `v6` carries
the 16 bytes of a genuine IPv6 address. -/
inductive NetIP where
  | v4 (a b c d : Nat)
  | v6 (bytes : List Nat)
deriving Repr, DecidableEq

/-- Models Go `net.IP.IsLoopback`. -/
def NetIP.isLoopback : NetIP → Bool
  | .v4 a _ _ _ => a == 127
  | .v6 bs => bs == [0, 0, 0, 0, 0, 0, 0, 0, 0, 0, 0, 0, 0, 0, 0, 1]

/-- Models Go `net.IP.IsPrivate` (RFC 1918 for IPv4, RFC 4193 ULA
`fc00::/7` for IPv6). -/
def NetIP.isPrivate : NetIP → Bool
  | .v4 a b _ _ => a == 10 || (a == 172 && b &&& 0xf0 == 16) || (a == 192 && b == 168)
  | .v6 bs => (bs.headD 0) &&& 0xfe == 0xfc

/-- Models Go `net.IP.IsLinkLocalUnicast` (`169.254/16`, `fe80::/10`). -/
def NetIP.isLinkLocalUnicast : NetIP → Bool
  | .v4 a b _ _ => a == 169 && b == 254
  | .v6 bs => (bs.headD 0) == 0xfe && (bs.getD 1 0) &&& 0xc0 == 0x80

/-- Models Go `net.IP.IsMulticast` (`224.0.0.0/4`, `ff00::/8`). -/
def NetIP.isMulticast : NetIP → Bool
  | .v4 a _ _ _ => a &&& 0xf0 == 0xe0
  | .v6 bs => (bs.headD 0) == 0xff

/-- DNS resolution oracle: models `net.LookupIP`; `none` models a
resolution failure. -/
def DNSOracle := String → Option (List NetIP)

/-! ### Embedding of the `libs` `Validator` (SSRF URL validation) -/

/-- The distinct rejection reasons of `Validator.ValidateURL` and its
helpers; each source rejection branch has its own constructor. -/
inductive ValidationError where
  | emptyURL
  | invalidFormat (msg : String)
  | disallowedScheme (scheme : String)
  | emptyHostname
  | localhostBlocked
  | dnsFailure
  | blockedIP (ip : NetIP) (reason : String)
deriving Repr, DecidableEq

/-- Embedding of `validateScheme`: only `http` and `https` pass. -/
def validateScheme (scheme : String) : Except ValidationError Unit :=
  if scheme == "http" || scheme == "https" then .ok ()
  else .error (.disallowedScheme scheme)

/-- Embedding of `isLocalhost`: lower-cased hostname equal to one of
the fixed localhost aliases. -/
def isLocalhost (hostname : String) : Bool :=
  ["localhost", "127.0.0.1", "::1", "0.0.0.0", "::"].contains (goToLower hostname)

/-- Embedding of `validateIP`: classify a single resolved address, in
the source's check order. `none` means the address is safe. -/
def validateIP (ip : NetIP) : Option String :=
  if ip.isLoopback then some "loopback addresses are not allowed"
  else if ip.isPrivate then some "private IP addresses are not allowed"
  else if ip.isLinkLocalUnicast then some "link-local addresses are not allowed"
  else if ip.isMulticast then some "multicast addresses are not allowed"
  else none

/-- First blocked address among the resolved ones, in resolution
order (the source's `for` loop returns on the first hit). -/
def firstBlockedIP : List NetIP → Option (NetIP × String)
  | [] => none
  | ip :: rest =>
    match validateIP ip with
    | some reason => some (ip, reason)
    | none => firstBlockedIP rest

/-- Embedding of `validateHostname`: empty-host and localhost checks,
then DNS resolution (fail-closed) and per-address classification. -/
def validateHostname (dns : DNSOracle) (hostname : String) : Except ValidationError Unit :=
  if hostname = "" then .error .emptyHostname
  else if isLocalhost hostname then .error .localhostBlocked
  else
    match dns hostname with
    | none => .error .dnsFailure
    | some ips =>
      match firstBlockedIP ips with
      | some (ip, reason) => .error (.blockedIP ip reason)
      | none => .ok ()

/-- Embedding of `Validator.ValidateURL`: empty check, parse, scheme
check, hostname/SSRF check, in the source's order. -/
def ValidateURL (dns : DNSOracle) (rawURL : String) : Except ValidationError Unit :=
  if rawURL = "" then .error .emptyURL
  else
    match parseURL rawURL with
    | .error e => .error (.invalidFormat e)
    | .ok parsed => do
      let scheme := goToLower parsed.scheme
      validateScheme scheme
      validateHostname dns parsed.hostname

/-! ### Embedding of the Spider crawler (`crawlers/spider.go`) -/

/-- Embedding of `SpiderConfig`. `delay` and `timeout` are Go
`time.Duration` values in nanoseconds. -/
structure SpiderConfig where
  maxDepth : Int := 0
  concurrency : Int := 0
  userAgent : String := ""
  delay : Int := 0
  timeout : Int := 0

/-- One nanosecond-denominated second (Go `time.Second`). -/
def timeSecond : Int := 1000000000

/-- Embedding of the `Spider` state. `visited` lists the keys of the
Go `map[string]bool` (kept duplicate-free); `onDocument` is the
caller-supplied handler (document body, url) → error. -/
structure Spider where
  timeout : Int
  maxDepth : Int
  concurrency : Int
  userAgent : String
  delay : Int
  visited : List String
  queue : List String
  running : Bool
  onDocument : Option (String → String → Except String Unit)

/-- Embedding of `NewSpider`: substitute defaults exactly for
zero-valued fields, then build the spider. -/
def newSpider (config : SpiderConfig) : Spider :=
  let config := if config.maxDepth = 0 then { config with maxDepth := 3 } else config
  let config := if config.concurrency = 0 then { config with concurrency := 5 } else config
  let config :=
    if config.userAgent = "" then
      { config with userAgent := "Mozilla/5.0 (compatible; GolwarcBot/1.0)" }
    else config
  let config := if config.timeout = 0 then { config with timeout := 30 * timeSecond } else config
  { timeout := config.timeout
    maxDepth := config.maxDepth
    concurrency := config.concurrency
    userAgent := config.userAgent
    delay := config.delay
    visited := []
    queue := []
    running := false
    onDocument := none }

/-- Embedding of `Stop`: it only flips the running flag. -/
def Spider.stop (s : Spider) : Spider := { s with running := false }

/-- Embedding of `GetVisitedCount`: the number of keys of the visited
map. -/
def Spider.getVisitedCount (s : Spider) : Nat := s.visited.length

/-- The per-URL error taxonomy of `crawlURL`, one constructor per
source return path. -/
inductive CrawlError where
  | requestError (msg : String)
  | transportError (msg : String)
  | statusError (code : Int)
  | parseError (msg : String)
  | handlerError (msg : String)
deriving Repr, DecidableEq

/-- An HTTP response as seen by `crawlURL`. -/
structure HttpResponse where
  statusCode : Int
  body : String
deriving Repr, DecidableEq

/-- The external effects `crawlURL` invokes: `http.NewRequest`, the
HTTP client's `Do` (given url and User-Agent header), and
`goquery.NewDocumentFromReader`. -/
structure FetchEnv where
  newRequest : String → Except String Unit
  fetch : String → String → Except String HttpResponse
  parseDoc : String → Except String String

deriving instance DecidableEq for Except

/-- Outcome of one `crawlURL` call: its returned error (if any) and
the number of network fetches it issued. -/
structure CrawlOutcome where
  result : Except CrawlError Unit
  fetches : Nat
deriving Repr, DecidableEq

/-- Embedding of `crawlURL`: build the request, fetch once (no
retry), fail on any status other than exactly 200, parse the body and
run the handler. -/
def crawlURL (s : Spider) (env : FetchEnv) (urlStr : String) : CrawlOutcome :=
  match env.newRequest urlStr with
  | .error e => ⟨.error (.requestError e), 0⟩
  | .ok () =>
    match env.fetch urlStr s.userAgent with
    | .error e => ⟨.error (.transportError e), 1⟩
    | .ok resp =>
      if resp.statusCode ≠ 200 then ⟨.error (.statusError resp.statusCode), 1⟩
      else
        match env.parseDoc resp.body with
        | .error e => ⟨.error (.parseError e), 1⟩
        | .ok doc =>
          match s.onDocument with
          | none => ⟨.ok (), 1⟩
          | some h =>
            match h doc urlStr with
            | .error e => ⟨.error (.handlerError e), 1⟩
            | .ok () => ⟨.ok (), 1⟩

/-- The driving loop of `Run`: pop the queue front; skip URLs already
in the visited set; otherwise mark visited and dispatch a fetch.
Returns the final visited list and the dispatched URLs in order. -/
def runLoop : List String → List String → List String × List String
  | [], visited => (visited, [])
  | u :: rest, visited =>
    if u ∈ visited then runLoop rest visited
    else
      ((runLoop rest (visited ++ [u])).1, u :: (runLoop rest (visited ++ [u])).2)

/-- Events of the driving loop, for ordering statements: a URL is
marked visited, or its fetch is dispatched. -/
inductive SpiderEvent where
  | mark (u : String)
  | fetch (u : String)
deriving Repr, DecidableEq

/-- The event trace of the driving loop: for each popped URL not yet
visited, a `mark` event strictly precedes its `fetch` event. -/
def runTrace : List String → List String → List SpiderEvent
  | [], _ => []
  | u :: rest, visited =>
    if u ∈ visited then runTrace rest visited
    else .mark u :: .fetch u :: runTrace rest (visited ++ [u])

/-- Embedding of `Run`: fail fast when already running; otherwise
drain the queue through `runLoop`, crawling each dispatched URL, and
return `nil` (the per-URL outcomes are only reported). -/
def Spider.run (env : FetchEnv) (s : Spider) :
    Except String (Spider × List (String × CrawlOutcome)) :=
  if s.running then .error "spider is already running"
  else
    .ok ({ s with visited := (runLoop s.queue s.visited).1, queue := [], running := false },
         (runLoop s.queue s.visited).2.map (fun u => (u, crawlURL s env u)))

/-- The URLs `Run` attempted to crawl (fetch dispatched). -/
def attemptedURLs (r : Except String (Spider × List (String × CrawlOutcome))) : List String :=
  match r with
  | .ok (_, res) => res.map Prod.fst
  | .error _ => []

/-- The driving loop of `Run` with a `Stop()` call interleaved before
iteration `stopAt` (flipping the running flag at that point). The
loop condition — as in the source — tests only queue non-emptiness
and never reads the flag. Returns (visited, dispatched, running). -/
def runLoopWithStop (stopAt : Option Nat) :
    List String → List String → Bool → Nat → List String × List String × Bool
  | [], visited, running, _ => (visited, [], running)
  | u :: rest, visited, running, i =>
    let running2 := if stopAt = some i then false else running
    if u ∈ visited then runLoopWithStop stopAt rest visited running2 (i+1)
    else
      ((runLoopWithStop stopAt rest (visited ++ [u]) running2 (i+1)).1,
       u :: (runLoopWithStop stopAt rest (visited ++ [u]) running2 (i+1)).2.1,
       (runLoopWithStop stopAt rest (visited ++ [u]) running2 (i+1)).2.2)

/-! ### Concrete fixtures used by witnesses and counterexamples -/

/-- A DNS oracle that fails on every hostname. -/
def dnsNone : DNSOracle := fun _ => none

/-- A DNS oracle resolving `example.com` to its public address. -/
def dnsExample : DNSOracle := fun h =>
  if h == "example.com" then some [.v4 93 184 216 34] else none

/-- A fetch environment in which every request succeeds with a 200
response and a parseable body. -/
def envOK : FetchEnv :=
  { newRequest := fun _ => .ok ()
    fetch := fun _ _ => .ok ⟨200, "<html><body><h1>Test</h1></body></html>"⟩
    parseDoc := fun b => .ok b }

/-- A fetch environment whose responses carry status 204 No Content
(a 2xx status that is not 200). -/
def env204 : FetchEnv :=
  { newRequest := fun _ => .ok ()
    fetch := fun _ _ => .ok ⟨204, "<html></html>"⟩
    parseDoc := fun b => .ok b }

/-- A freshly configured spider whose queue holds one
validator-rejected URL. -/
def spiderLocalhost : Spider := { newSpider {} with queue := ["http://localhost/"] }

/-- A freshly configured spider whose queue holds a duplicate URL. -/
def spiderDup : Spider :=
  { newSpider {} with queue := ["http://a.example/", "http://b.example/", "http://a.example/"] }

/-! ### Helper lemmas about the driving loop -/

theorem runLoop_visited_eq (q v : List String) :
    (runLoop q v).1 = v ++ (runLoop q v).2 := by
  induction q generalizing v with
  | nil => simp [runLoop]
  | cons u rest ih =>
    by_cases hc : u ∈ v
    · simpa [runLoop, hc] using ih v
    · simp only [runLoop, if_neg hc]
      rw [ih (v ++ [u])]
      simp

theorem mem_runLoop_dispatched (q v : List String) (u : String) :
    u ∈ (runLoop q v).2 ↔ u ∈ q ∧ u ∉ v := by
  induction q generalizing v with
  | nil => simp [runLoop]
  | cons u' rest ih =>
    by_cases hc : u' ∈ v
    · have hv : u' ∈ v := hc
      simp only [runLoop, if_pos hc]
      rw [ih]
      constructor
      · rintro ⟨hr, hnv⟩
        exact ⟨List.mem_cons_of_mem _ hr, hnv⟩
      · rintro ⟨hq, hnv⟩
        rcases List.mem_cons.mp hq with h | h
        · exact absurd (h ▸ hv) hnv
        · exact ⟨h, hnv⟩
    · have hv : u' ∉ v := hc
      simp only [runLoop, if_neg hc, List.mem_cons]
      rw [ih]
      constructor
      · rintro (h | ⟨hr, hnv⟩)
        · subst h
          exact ⟨Or.inl rfl, hv⟩
        · refine ⟨Or.inr hr, fun hmem => hnv ?_⟩
          exact List.mem_append_left _ hmem
      · rintro ⟨hq, hnv⟩
        rcases hq with h | h
        · exact Or.inl h
        · by_cases he : u = u'
          · exact Or.inl he
          · refine Or.inr ⟨h, fun hmem => ?_⟩
            rcases List.mem_append.mp hmem with h1 | h1
            · exact hnv h1
            · simp only [List.mem_singleton] at h1
              exact he h1

theorem runLoop_dispatched_nodup (q v : List String) :
    (runLoop q v).2.Nodup := by
  induction q generalizing v with
  | nil => simp [runLoop]
  | cons u' rest ih =>
    by_cases hc : u' ∈ v
    · simpa [runLoop, hc] using ih v
    · simp only [runLoop, if_neg hc]
      refine List.nodup_cons.mpr ⟨?_, ih _⟩
      rw [mem_runLoop_dispatched]
      rintro ⟨_, hnv⟩
      exact hnv (by simp)

theorem attemptedURLs_run (s : Spider) (env : FetchEnv) (h : s.running = false) :
    attemptedURLs (s.run env) = (runLoop s.queue s.visited).2 := by
  simp only [Spider.run, h, Bool.false_eq_true, if_false, attemptedURLs, List.map_map]
  rw [show Prod.fst ∘ (fun u : String => (u, crawlURL s env u)) = id from rfl, List.map_id]

/-! ### Helper lemmas about the validator -/

theorem validateScheme_allowed (scheme : String)
    (h : scheme = "http" ∨ scheme = "https") : validateScheme scheme = .ok () := by
  rcases h with h | h <;> simp [validateScheme, h]

theorem validateScheme_rejected (scheme : String)
    (h1 : scheme ≠ "http") (h2 : scheme ≠ "https") :
    validateScheme scheme = .error (.disallowedScheme scheme) := by
  simp [validateScheme, h1, h2]

theorem validateURL_empty (dns : DNSOracle) : ValidateURL dns "" = .error .emptyURL := rfl

theorem validateURL_parse_error (dns : DNSOracle) (raw : String) (e : String)
    (hraw : raw ≠ "") (hp : parseURL raw = .error e) :
    ValidateURL dns raw = .error (.invalidFormat e) := by
  simp [ValidateURL, hraw, hp]

theorem validateURL_bad_scheme (dns : DNSOracle) (raw : String) (u : GoURL)
    (hraw : raw ≠ "") (hp : parseURL raw = .ok u)
    (h1 : goToLower u.scheme ≠ "http") (h2 : goToLower u.scheme ≠ "https") :
    ValidateURL dns raw = .error (.disallowedScheme (goToLower u.scheme)) := by
  simp [ValidateURL, hraw, hp, validateScheme_rejected _ h1 h2, Bind.bind, Except.bind]

theorem validateURL_scheme_ok (dns : DNSOracle) (raw : String) (u : GoURL)
    (hraw : raw ≠ "") (hp : parseURL raw = .ok u)
    (hs : goToLower u.scheme = "http" ∨ goToLower u.scheme = "https") :
    ValidateURL dns raw = validateHostname dns u.hostname := by
  simp [ValidateURL, hraw, hp, validateScheme_allowed _ hs, Bind.bind, Except.bind]

theorem validateHostname_dns_none (dns : DNSOracle) (h : String)
    (hh : h ≠ "") (hl : isLocalhost h = false) (hdns : dns h = none) :
    validateHostname dns h = .error .dnsFailure := by
  simp [validateHostname, hh, hl, hdns]

theorem validateHostname_dns_some (dns : DNSOracle) (h : String) (ips : List NetIP)
    (hh : h ≠ "") (hl : isLocalhost h = false) (hdns : dns h = some ips) :
    validateHostname dns h =
      (match firstBlockedIP ips with
       | some (ip, reason) => .error (.blockedIP ip reason)
       | none => .ok ()) := by
  simp [validateHostname, hh, hl, hdns]

theorem validateIP_none_iff (ip : NetIP) :
    validateIP ip = none ↔
      ip.isLoopback = false ∧ ip.isPrivate = false ∧
      ip.isLinkLocalUnicast = false ∧ ip.isMulticast = false := by
  unfold validateIP
  split_ifs <;> simp_all

theorem firstBlockedIP_none_iff (ips : List NetIP) :
    firstBlockedIP ips = none ↔ ∀ ip ∈ ips, validateIP ip = none := by
  induction ips with
  | nil => simp [firstBlockedIP]
  | cons ip rest ih =>
    cases hv : validateIP ip <;> simp [firstBlockedIP, hv, ih]

/-! ### C2 — syntactic rejection branches of ValidateURL -/

/-- C2: `ValidateURL` rejects, in source order and each with its own
distinct reason, an empty URL, an unparseable URL, any URL whose
lower-cased scheme is not exactly `http`/`https` (covering `file`,
`javascript`, `ftp`, `data`), an empty hostname, and a hostname in
the fixed localhost-alias denylist — and for all these rejections the
verdict is the same under every DNS oracle, i.e. no DNS resolution
takes part in them. -/
theorem validateURL_syntactic_rejections (dns dns2 : DNSOracle) (raw : String) :
    (raw = "" → ValidateURL dns raw = .error .emptyURL) ∧
    (∀ e, raw ≠ "" → parseURL raw = .error e →
      ValidateURL dns raw = .error (.invalidFormat e)) ∧
    (∀ u, raw ≠ "" → parseURL raw = .ok u →
      goToLower u.scheme ≠ "http" → goToLower u.scheme ≠ "https" →
      ValidateURL dns raw = .error (.disallowedScheme (goToLower u.scheme))) ∧
    (∀ u, raw ≠ "" → parseURL raw = .ok u →
      (goToLower u.scheme = "http" ∨ goToLower u.scheme = "https") → u.hostname = "" →
      ValidateURL dns raw = .error .emptyHostname) ∧
    (∀ u, raw ≠ "" → parseURL raw = .ok u →
      (goToLower u.scheme = "http" ∨ goToLower u.scheme = "https") → u.hostname ≠ "" →
      isLocalhost u.hostname = true → ValidateURL dns raw = .error .localhostBlocked) ∧
    ((raw = "" ∨ (∃ e, parseURL raw = .error e) ∨
      (∃ u, parseURL raw = .ok u ∧
        (goToLower u.scheme ≠ "http" ∧ goToLower u.scheme ≠ "https" ∨ u.hostname = "" ∨
          isLocalhost u.hostname = true))) →
      ValidateURL dns raw = ValidateURL dns2 raw) := by
  refine ⟨?_, ?_, ?_, ?_, ?_, ?_⟩
  · rintro rfl
    exact validateURL_empty dns
  · intro e hraw hp
    exact validateURL_parse_error dns raw e hraw hp
  · intro u hraw hp h1 h2
    exact validateURL_bad_scheme dns raw u hraw hp h1 h2
  · intro u hraw hp hs hh
    rw [validateURL_scheme_ok dns raw u hraw hp hs]
    simp [validateHostname, hh]
  · intro u hraw hp hs hh hl
    rw [validateURL_scheme_ok dns raw u hraw hp hs]
    simp [validateHostname, hh, hl]
  · intro hcase
    by_cases hraw : raw = ""
    · rw [hraw, validateURL_empty dns, validateURL_empty dns2]
    · rcases hcase with h | ⟨e, hp⟩ | ⟨u, hp, hrej⟩
      · exact absurd h hraw
      · rw [validateURL_parse_error dns raw e hraw hp,
            validateURL_parse_error dns2 raw e hraw hp]
      · rcases hrej with ⟨h1, h2⟩ | hh | hl
        · rw [validateURL_bad_scheme dns raw u hraw hp h1 h2,
              validateURL_bad_scheme dns2 raw u hraw hp h1 h2]
        · by_cases hs : goToLower u.scheme = "http" ∨ goToLower u.scheme = "https"
          · rw [validateURL_scheme_ok dns raw u hraw hp hs,
                validateURL_scheme_ok dns2 raw u hraw hp hs]
            simp [validateHostname, hh]
          · push_neg at hs
            rw [validateURL_bad_scheme dns raw u hraw hp hs.1 hs.2,
                validateURL_bad_scheme dns2 raw u hraw hp hs.1 hs.2]
        · by_cases hs : goToLower u.scheme = "http" ∨ goToLower u.scheme = "https"
          · by_cases hh : u.hostname = ""
            · rw [validateURL_scheme_ok dns raw u hraw hp hs,
                  validateURL_scheme_ok dns2 raw u hraw hp hs]
              simp [validateHostname, hh]
            · rw [validateURL_scheme_ok dns raw u hraw hp hs,
                  validateURL_scheme_ok dns2 raw u hraw hp hs]
              simp [validateHostname, hh, hl]
          · push_neg at hs
            rw [validateURL_bad_scheme dns raw u hraw hp hs.1 hs.2,
                validateURL_bad_scheme dns2 raw u hraw hp hs.1 hs.2]

/-- Witness for C2 at concrete inputs: the empty URL, a `file` URL, a
`javascript` URL and a localhost URL are all rejected with their own
reasons, under a DNS oracle that never resolves anything. -/
theorem validateURL_syntactic_rejections_witness :
    ValidateURL dnsNone "" = .error .emptyURL ∧
    ValidateURL dnsNone "file:///etc/passwd" = .error (.disallowedScheme "file") ∧
    ValidateURL dnsNone "javascript:alert(1)" = .error (.disallowedScheme "javascript") ∧
    ValidateURL dnsNone "http://localhost:8080" = .error .localhostBlocked :=
  ⟨(validateURL_syntactic_rejections dnsNone dnsNone "").1 rfl,
   (validateURL_syntactic_rejections dnsNone dnsNone "file:///etc/passwd").2.2.1
     ⟨"file", "", none, "", "/etc/passwd", false, false, "", ""⟩
     (by decide) (by decide) (by decide) (by decide),
   (validateURL_syntactic_rejections dnsNone dnsNone "javascript:alert(1)").2.2.1
     ⟨"javascript", "alert(1)", none, "", "", false, false, "", ""⟩
     (by decide) (by decide) (by decide) (by decide),
   (validateURL_syntactic_rejections dnsNone dnsNone "http://localhost:8080").2.2.2.2.1
     ⟨"http", "", none, "localhost:8080", "", false, false, "", ""⟩
     (by decide) (by decide) (Or.inl (by decide)) (by decide) (by decide)⟩

/-! ### C3 — the DNS / SSRF gate of ValidateURL -/

/-- C3: for URLs past the syntactic checks, `ValidateURL` fails
closed on DNS resolution failure, rejects when any resolved address
is loopback, private, link-local or multicast, and allows exactly
when resolution succeeds and every resolved address avoids all four
categories. -/
theorem validateURL_dns_gate (dns : DNSOracle) (raw : String) (u : GoURL)
    (hraw : raw ≠ "") (hp : parseURL raw = .ok u)
    (hs : goToLower u.scheme = "http" ∨ goToLower u.scheme = "https")
    (hh : u.hostname ≠ "") (hl : isLocalhost u.hostname = false) :
    (dns u.hostname = none → ValidateURL dns raw = .error .dnsFailure) ∧
    (∀ ips ip, dns u.hostname = some ips → ip ∈ ips →
      (ip.isLoopback || ip.isPrivate || ip.isLinkLocalUnicast || ip.isMulticast) = true →
      ValidateURL dns raw ≠ .ok ()) ∧
    (ValidateURL dns raw = .ok () ↔
      ∃ ips, dns u.hostname = some ips ∧
        ∀ ip ∈ ips, ip.isLoopback = false ∧ ip.isPrivate = false ∧
          ip.isLinkLocalUnicast = false ∧ ip.isMulticast = false) := by
  rw [validateURL_scheme_ok dns raw u hraw hp hs]
  refine ⟨?_, ?_, ?_⟩
  · intro hdns
    exact validateHostname_dns_none dns u.hostname hh hl hdns
  · intro ips ip hdns hmem hbad hok
    rw [validateHostname_dns_some dns u.hostname ips hh hl hdns] at hok
    rcases hfb : firstBlockedIP ips with _ | ⟨ip2, reason⟩
    · have hall := (firstBlockedIP_none_iff ips).mp hfb ip hmem
      rw [validateIP_none_iff] at hall
      simp [hall.1, hall.2.1, hall.2.2.1, hall.2.2.2] at hbad
    · rw [hfb] at hok
      simp at hok
  · constructor
    · intro hok
      rcases hdns : dns u.hostname with _ | ips
      · rw [validateHostname_dns_none dns u.hostname hh hl hdns] at hok
        simp at hok
      · rw [validateHostname_dns_some dns u.hostname ips hh hl hdns] at hok
        rcases hfb : firstBlockedIP ips with _ | ⟨ip2, reason⟩
        · exact ⟨ips, rfl, fun ip hmem =>
            (validateIP_none_iff ip).mp ((firstBlockedIP_none_iff ips).mp hfb ip hmem)⟩
        · rw [hfb] at hok
          simp at hok
    · rintro ⟨ips, hdns, hall⟩
      rw [validateHostname_dns_some dns u.hostname ips hh hl hdns]
      have hfb : firstBlockedIP ips = none := by
        rw [firstBlockedIP_none_iff]
        exact fun ip hmem => (validateIP_none_iff ip).mpr (hall ip hmem)
      rw [hfb]

/-- Witness for C3: `https://example.com/path` with DNS resolving to
the public address `93.184.216.34` is allowed; the same URL under a
failing DNS oracle is rejected. -/
theorem validateURL_dns_gate_witness :
    ValidateURL dnsExample "https://example.com/path" = .ok () ∧
    ValidateURL dnsNone "https://example.com/path" = .error .dnsFailure :=
  ⟨((validateURL_dns_gate dnsExample "https://example.com/path"
      ⟨"https", "", none, "example.com", "/path", false, false, "", ""⟩
      (by decide) (by decide) (Or.inr (by decide)) (by decide) (by decide)).2.2).mpr
      ⟨[.v4 93 184 216 34], by decide, by decide⟩,
   (validateURL_dns_gate dnsNone "https://example.com/path"
      ⟨"https", "", none, "example.com", "/path", false, false, "", ""⟩
      (by decide) (by decide) (Or.inr (by decide)) (by decide) (by decide)).1 rfl⟩

/-! ### C8 — constructor defaults -/

/-- C8: `NewSpider` substitutes defaults exactly for zero-valued
fields — `MaxDepth 0 → 3`, `Concurrency 0 → 5`, empty `UserAgent` →
the fixed GolwarcBot string, `Timeout 0 → 30s` — `Delay` is copied
unchanged (no substitution), and non-zero values are kept. -/
theorem newSpider_applies_defaults_exactly_on_zero_fields (config : SpiderConfig) :
    (newSpider config).maxDepth = (if config.maxDepth = 0 then 3 else config.maxDepth) ∧
    (newSpider config).concurrency = (if config.concurrency = 0 then 5 else config.concurrency) ∧
    (newSpider config).userAgent =
      (if config.userAgent = "" then "Mozilla/5.0 (compatible; GolwarcBot/1.0)"
       else config.userAgent) ∧
    (newSpider config).timeout = (if config.timeout = 0 then 30 * timeSecond else config.timeout) ∧
    (newSpider config).delay = config.delay := by
  unfold newSpider
  split_ifs <;> simp_all

/-! ### C5 — Run's return value -/

/-- C5: `Run()` returns the "already running" error exactly when the
running flag is set at the call; otherwise it returns success for
every fetch environment — however many per-URL crawls fail, the
failures are only reported in the per-URL outcome list. -/
theorem run_errors_iff_already_running (s : Spider) (env : FetchEnv) :
    (s.running = true → s.run env = .error "spider is already running") ∧
    (s.running = false → ∃ s' res, s.run env = .ok (s', res)) := by
  constructor
  · intro h
    simp [Spider.run, h]
  · intro h
    exact ⟨{ s with visited := (runLoop s.queue s.visited).1, queue := [], running := false },
           (runLoop s.queue s.visited).2.map (fun u => (u, crawlURL s env u)),
           by simp [Spider.run, h]⟩

/-- Witness for C5 at concrete spiders: a running spider's `Run` is
rejected, an idle one's succeeds. -/
theorem run_errors_iff_already_running_witness :
    ({ spiderDup with running := true } : Spider).run envOK =
      .error "spider is already running" ∧
    ∃ s' res, spiderDup.run envOK = .ok (s', res) :=
  ⟨(run_errors_iff_already_running { spiderDup with running := true } envOK).1 rfl,
   (run_errors_iff_already_running spiderDup envOK).2 rfl⟩

/-! ### C4 — at-most-once fetch per session -/

/-- C4: within one `Run` invocation, each distinct URL string is
fetched at most once: the attempted list is duplicate-free, a URL is
attempted exactly when it is queued and not already visited (its
first pop claims it in the visited set), and the final visited set is
the initial one extended by exactly the attempted URLs. -/
theorem run_fetches_each_url_at_most_once (s : Spider) (env : FetchEnv)
    (h : s.running = false) :
    (attemptedURLs (s.run env)).Nodup ∧
    (∀ u, u ∈ attemptedURLs (s.run env) ↔ u ∈ s.queue ∧ u ∉ s.visited) ∧
    (∀ s' res, s.run env = .ok (s', res) →
      s'.visited = s.visited ++ attemptedURLs (s.run env)) := by
  refine ⟨?_, ?_, ?_⟩
  · rw [attemptedURLs_run s env h]
    exact runLoop_dispatched_nodup _ _
  · intro u
    rw [attemptedURLs_run s env h]
    exact mem_runLoop_dispatched _ _ _
  · intro s' res hrun
    rw [attemptedURLs_run s env h]
    simp only [Spider.run, h, Bool.false_eq_true, if_false, Except.ok.injEq, Prod.mk.injEq] at hrun
    rw [← hrun.1]
    exact runLoop_visited_eq _ _

/-- Witness for C4: on a queue holding `http://a.example/` twice, the
attempted list is duplicate-free and contains that URL. -/
theorem run_fetches_each_url_at_most_once_witness :
    (attemptedURLs (spiderDup.run envOK)).Nodup ∧
    "http://a.example/" ∈ attemptedURLs (spiderDup.run envOK) :=
  ⟨(run_fetches_each_url_at_most_once spiderDup envOK rfl).1,
   ((run_fetches_each_url_at_most_once spiderDup envOK rfl).2.1 "http://a.example/").mpr
     (by decide)⟩

/-! ### C7 — Stop does not halt the driving loop (code bug) -/

theorem runLoopWithStop_dispatch_eq (stopAt : Option Nat) (q : List String) :
    ∀ (v : List String) (running : Bool) (i : Nat),
      (runLoopWithStop stopAt q v running i).2.1 = (runLoop q v).2 := by
  induction q with
  | nil => intro v running i; simp [runLoopWithStop, runLoop]
  | cons u rest ih =>
    intro v running i
    by_cases hc : u ∈ v
    · simp [runLoopWithStop, runLoop, hc, ih]
    · simp [runLoopWithStop, runLoop, hc, ih]

/-- C7 evaluation: `Stop()` only flips the running flag; the driving
loop of `Run` tests only queue non-emptiness and never reads the
flag, so after `Stop()` fires (here: before the second iteration) the
remaining URL is still popped and dispatched — its dispatch list is
the same with or without the `Stop()`. -/
theorem stop_does_not_halt_queue_drain :
    (Spider.stop { newSpider {} with running := true }).running = false ∧
    runLoopWithStop (some 1) ["http://a.example/", "http://b.example/"] [] true 0 =
      (["http://a.example/", "http://b.example/"],
       ["http://a.example/", "http://b.example/"], false) ∧
    (∀ stopAt q v running i,
      (runLoopWithStop stopAt q v running i).2.1 = (runLoop q v).2) :=
  ⟨rfl, by decide, fun stopAt q v running i => runLoopWithStop_dispatch_eq stopAt q v running i⟩

/-! ### C6 — status handling in crawlURL -/

theorem crawlURL_fetches_one (s : Spider) (env : FetchEnv) (u : String)
    (h4 : env.newRequest u = .ok ()) : (crawlURL s env u).fetches = 1 := by
  unfold crawlURL
  rw [h4]
  dsimp only
  repeat' split
  all_goals rfl

/-- C6 counterexample: status 204 lies in the 2xx range, yet
`crawlURL` reports it as a failure carrying the status code — the
source compares against exactly `http.StatusOK` (200), not against
the 2xx range. -/
theorem crawlURL_rejects_2xx_status_204 :
    ((200:Int) ≤ 204 ∧ (204:Int) ≤ 299) ∧
    (crawlURL (newSpider {}) env204 "https://example.com/").result =
      .error (.statusError 204) := by
  exact ⟨by decide, rfl⟩

/-- C6 (amended): `crawlURL` reports a failure carrying the status
code exactly when the response status is not exactly 200 (rather than
"outside the 2xx range" — 2xx statuses other than 200 are also
failures); it issues exactly one fetch, never retrying; and for
status 200 it never reports a status failure but proceeds to parse
the body. -/
theorem crawlURL_fails_iff_status_not_200 (s : Spider) (env : FetchEnv) (u : String)
    (resp : HttpResponse)
    (h1 : env.newRequest u = .ok ()) (h2 : env.fetch u s.userAgent = .ok resp) :
    ((crawlURL s env u).fetches = 1) ∧
    (resp.statusCode ≠ 200 →
      (crawlURL s env u).result = .error (.statusError resp.statusCode)) ∧
    (resp.statusCode = 200 → ∀ c, (crawlURL s env u).result ≠ .error (.statusError c)) := by
  refine ⟨crawlURL_fetches_one s env u h1, ?_, ?_⟩
  · intro hst
    unfold crawlURL
    rw [h1, h2]
    dsimp only
    rw [if_pos hst]
  · intro hst c
    unfold crawlURL
    rw [h1, h2]
    dsimp only
    rw [if_neg (fun hcon => hcon hst)]
    repeat' split
    all_goals simp

/-- Witness for C6's amended theorem: under the 204 environment, one
fetch is issued and the reported failure carries status 204. -/
theorem crawlURL_fails_iff_status_not_200_witness :
    (crawlURL (newSpider {}) env204 "https://b.example/").fetches = 1 ∧
    (crawlURL (newSpider {}) env204 "https://b.example/").result =
      .error (.statusError 204) :=
  ⟨(crawlURL_fails_iff_status_not_200 (newSpider {}) env204 "https://b.example/"
      ⟨204, "<html></html>"⟩ rfl rfl).1,
   (crawlURL_fails_iff_status_not_200 (newSpider {}) env204 "https://b.example/"
      ⟨204, "<html></html>"⟩ rfl rfl).2.1 (by decide)⟩

/-! ### C1 — no validation before fetch (spec/code divergence) -/

/-- C1 counterexample: `http://localhost/` is rejected by the URL
Validator (under any DNS oracle — here the always-failing one), yet a
`Run()` whose queue holds it still dispatches it and `crawlURL`
issues one network fetch for it: the Spider never consults the
validator. -/
theorem run_fetches_validator_rejected_url :
    ValidateURL dnsNone "http://localhost/" = .error .localhostBlocked ∧
    attemptedURLs (spiderLocalhost.run envOK) = ["http://localhost/"] ∧
    (crawlURL spiderLocalhost envOK "http://localhost/").fetches = 1 := by
  exact ⟨by decide, by decide, rfl⟩

/-- C1 (amended): `Run()` applies no URL-Validator check: every
popped URL not already in the visited set is attempted — including
URLs the Validator rejects — and its network fetch is issued whenever
request construction succeeds; the only pre-network rejection is
`http.NewRequest` failing. -/
theorem run_attempts_urls_without_validation (s : Spider) (env : FetchEnv)
    (dns : DNSOracle) (u : String) (err : ValidationError)
    (h0 : s.running = false) (h1 : u ∈ s.queue) (h2 : u ∉ s.visited)
    (h3 : ValidateURL dns u = .error err) (h4 : env.newRequest u = .ok ()) :
    u ∈ attemptedURLs (s.run env) ∧ (crawlURL s env u).fetches = 1 := by
  constructor
  · rw [attemptedURLs_run s env h0]
    exact (mem_runLoop_dispatched _ _ _).mpr ⟨h1, h2⟩
  · exact crawlURL_fetches_one s env u h4

/-- Witness for C1's amended theorem at the localhost fixture. -/
theorem run_attempts_urls_without_validation_witness :
    "http://localhost/" ∈ attemptedURLs (spiderLocalhost.run envOK) ∧
    (crawlURL spiderLocalhost envOK "http://localhost/").fetches = 1 :=
  run_attempts_urls_without_validation spiderLocalhost envOK dnsNone
    "http://localhost/" .localhostBlocked rfl (by decide) (by decide) (by decide) rfl

/-! ### C9 — ResolveURL -/

theorem resolveReference_absolute (v ref : GoURL) (h : ref.scheme ≠ "") :
    resolveReference v ref = { ref with path := resolvePath ref.path "" } := by
  simp [resolveReference, h, Id.run]

/-- C9: `ResolveURL` performs RFC 3986 base/relative resolution: the
four literal cases of the spec hold; a malformed base or relative
input yields an error; and resolving an absolute (scheme-carrying)
relative input does not depend on the base at all. -/
theorem resolveURL_rfc3986 :
    ResolveURL "https://example.com/base/" "page.html" =
      .ok "https://example.com/base/page.html" ∧
    ResolveURL "https://example.com/base/" "/absolute/path" =
      .ok "https://example.com/absolute/path" ∧
    ResolveURL "https://example.com/" "https://other.com/page" =
      .ok "https://other.com/page" ∧
    ResolveURL "://invalid" "/page" = .error "missing protocol scheme" ∧
    (∀ b r e, parseURL b = .error e → ResolveURL b r = .error e) ∧
    (∀ b r ub e, parseURL b = .ok ub → parseURL r = .error e → ResolveURL b r = .error e) ∧
    (∀ b1 b2 r u1 u2 ur, parseURL b1 = .ok u1 → parseURL b2 = .ok u2 →
      parseURL r = .ok ur → ur.scheme ≠ "" → ResolveURL b1 r = ResolveURL b2 r) := by
  refine ⟨by decide, by decide, by decide, by decide, ?_, ?_, ?_⟩
  · intro b r e hb
    simp [ResolveURL, hb, Bind.bind, Except.bind]
  · intro b r ub e hb hr
    simp [ResolveURL, hb, hr, Bind.bind, Except.bind]
  · intro b1 b2 r u1 u2 ur hb1 hb2 hr habs
    simp only [ResolveURL, hb1, hb2, hr, Bind.bind, Except.bind]
    rw [resolveReference_absolute u1 ur habs, resolveReference_absolute u2 ur habs]

/-- Witness for C9's quantified parts: base-independence of an
absolute relative input, and error propagation from a malformed
relative input, at concrete URLs. -/
theorem resolveURL_rfc3986_witness :
    ResolveURL "http://one.example/" "https://other.com/page" =
      ResolveURL "http://two.example/" "https://other.com/page" ∧
    ResolveURL "https://example.com/" "://bad" = .error "missing protocol scheme" :=
  ⟨resolveURL_rfc3986.2.2.2.2.2.2 "http://one.example/" "http://two.example/"
      "https://other.com/page"
      ⟨"http", "", none, "one.example", "/", false, false, "", ""⟩
      ⟨"http", "", none, "two.example", "/", false, false, "", ""⟩
      ⟨"https", "", none, "other.com", "/page", false, false, "", ""⟩
      (by decide) (by decide) (by decide) (by decide),
   resolveURL_rfc3986.2.2.2.2.2.1 "https://example.com/" "://bad"
      ⟨"https", "", none, "example.com", "/", false, false, "", ""⟩
      "missing protocol scheme" (by decide) (by decide)⟩

/-! ### C10 — visited set counts attempts, not successes -/

/-- Projection extracting the URL of a fetch event. -/
def fetchedOf : SpiderEvent → Option String
  | .fetch u => some u
  | .mark _ => none

theorem runTrace_filterMap (q v : List String) :
    (runTrace q v).filterMap fetchedOf = (runLoop q v).2 := by
  induction q generalizing v with
  | nil => simp [runTrace, runLoop]
  | cons u rest ih =>
    by_cases hc : u ∈ v
    · simp [runTrace, runLoop, hc, ih]
    · simp [runTrace, runLoop, hc, ih, fetchedOf]

theorem runTrace_mark_before_fetch (q : List String) :
    ∀ (v t1 t2 : _) (u : String),
      runTrace q v = t1 ++ SpiderEvent.fetch u :: t2 →
      SpiderEvent.mark u ∈ t1 ∨ u ∈ v := by
  induction q with
  | nil =>
    intro v t1 t2 u h
    exact absurd h (by simp [runTrace])
  | cons w rest ih =>
    intro v t1 t2 u h
    by_cases hc : w ∈ v
    · simp only [runTrace, if_pos hc] at h
      exact ih v t1 t2 u h
    · simp only [runTrace, if_neg hc] at h
      cases t1 with
      | nil =>
        rw [List.nil_append] at h
        injection h with h1 _
        simp at h1
      | cons e1 t1a =>
        rw [List.cons_append] at h
        injection h with he1 h
        cases t1a with
        | nil =>
          rw [List.nil_append] at h
          injection h with hf _
          injection hf with hu
          subst hu
          exact Or.inl (by rw [← he1]; simp)
        | cons e2 t1b =>
          rw [List.cons_append] at h
          injection h with he2 h
          rcases ih (v ++ [w]) t1b t2 u h with hm | hv
          · exact Or.inl (List.mem_cons_of_mem _ (List.mem_cons_of_mem _ hm))
          · rcases List.mem_append.mp hv with h1 | h1
            · exact Or.inr h1
            · have hu : u = w := by simpa using h1
              subst hu
              exact Or.inl (by rw [← he1]; simp)

/-- C10: in the driving loop's event trace, every fetch of a URL not
already visited is preceded by its insertion into the visited set;
the fetch events are exactly the dispatched URLs; the final visited
set is independent of the fetch environment, so `GetVisitedCount`
counts attempted URLs regardless of how their crawls ended; the count
grows by exactly the number of attempts; every attempted URL (failed
or not) ends up in the visited set; and no attempted URL appears
twice (no retry within a session). -/
theorem visited_counts_attempts_not_successes :
    (∀ q v t1 t2 u, runTrace q v = t1 ++ SpiderEvent.fetch u :: t2 →
      SpiderEvent.mark u ∈ t1 ∨ u ∈ v) ∧
    (∀ q v, (runTrace q v).filterMap fetchedOf = (runLoop q v).2) ∧
    (∀ s : Spider, ∀ env env2 s1 r1 s2 r2,
      s.run env = .ok (s1, r1) → s.run env2 = .ok (s2, r2) → s1.visited = s2.visited) ∧
    (∀ s : Spider, ∀ env s1 r1, s.running = false → s.run env = .ok (s1, r1) →
      s1.getVisitedCount = s.getVisitedCount + r1.length ∧
      (∀ p ∈ r1, p.1 ∈ s1.visited) ∧ (r1.map Prod.fst).Nodup) := by
  refine ⟨fun q v t1 t2 u => runTrace_mark_before_fetch q v t1 t2 u,
          runTrace_filterMap, ?_, ?_⟩
  · intro s env env2 s1 r1 s2 r2 h h2
    by_cases hr : s.running
    · simp [Spider.run, hr] at h
    · simp only [Spider.run, hr, Bool.false_eq_true, if_false, Except.ok.injEq,
        Prod.mk.injEq] at h h2
      rw [← h.1, ← h2.1]
  · intro s env s1 r1 h0 h
    simp only [Spider.run, h0, Bool.false_eq_true, if_false, Except.ok.injEq,
      Prod.mk.injEq] at h
    obtain ⟨hs1, hr1⟩ := h
    have hvis : s1.visited = s.visited ++ (runLoop s.queue s.visited).2 := by
      rw [← hs1]
      exact runLoop_visited_eq _ _
    have hfst : r1.map Prod.fst = (runLoop s.queue s.visited).2 := by
      rw [← hr1, List.map_map]
      rw [show Prod.fst ∘ (fun u : String => (u, crawlURL s env u)) = id from rfl,
          List.map_id]
    refine ⟨?_, ?_, ?_⟩
    · have hlen : r1.length = (runLoop s.queue s.visited).2.length := by
        rw [← hr1, List.length_map]
      simp [Spider.getVisitedCount, hvis, hlen]
    · intro p hp
      rw [hvis]
      refine List.mem_append_right _ ?_
      have : p.1 ∈ r1.map Prod.fst := List.mem_map_of_mem _ hp
      rwa [hfst] at this
    · rw [hfst]
      exact runLoop_dispatched_nodup _ _

/-- Witness for C10: a concrete trace where the `mark` of a URL
precedes its `fetch`. -/
theorem visited_counts_attempts_not_successes_witness :
    SpiderEvent.mark "http://a.example/" ∈ [SpiderEvent.mark "http://a.example/"] ∨
      "http://a.example/" ∈ ([] : List String) :=
  visited_counts_attempts_not_successes.1 ["http://a.example/"] []
    [SpiderEvent.mark "http://a.example/"] [] "http://a.example/" (by decide)

end Golwarc
